import Mathlib

/-!
Verification development for the chatscribe2 document-chat service.

The definitions below are a shallow embedding of the Python sources:
  - app/core/config.py          (Settings)
  - app/core/file_processor.py  (FileProcessor)
  - app/api/documents.py        (upload_document endpoint)
  - app/core/ai_service.py      (AIService, hosted backend)
  - app/core/alternative_ai_service.py (AlternativeAIService, local backend)
  - app/api/chat.py             (chat endpoints)
  - app/crud/crud.py            (message persistence)

External effects (file system writes, database rows, Pinecone calls, LLM
calls) are made explicit: nondeterministic or remote results are inputs
drawn from an environment record, and effects are returned as data.
-/

/-! ## Python string primitives used by the sources -/

/-- ASCII lower-casing of a string, modelling Python str.lower() on the
ASCII range (all strings compared by the sources are ASCII). -/
def asciiLower (s : String) : String :=
  String.mk (s.data.map fun c =>
    if 'A' ≤ c ∧ c ≤ 'Z' then Char.ofNat (c.toNat + 32) else c)

/-- Whether the first list is an initial segment of the second. -/
def listStartsWith : List Char → List Char → Bool
  | [], _ => true
  | _ :: _, [] => false
  | p :: ps, c :: cs => p == c && listStartsWith ps cs

/-- Whether the pattern occurs as a contiguous sublist of the text. -/
def listContainsSub (pat : List Char) : List Char → Bool
  | [] => pat.isEmpty
  | c :: cs => listStartsWith pat (c :: cs) || listContainsSub pat cs

/-- Substring test, modelling Python's infix `in` on strings. -/
def strContains (s pat : String) : Bool :=
  listContainsSub pat.data s.data

/-- Splitting a character list at every separator character: the pieces
between separators, in order, empty pieces included, as Python
str.split(sep) produces for a one-character separator. -/
def splitCharListBy (p : Char → Bool) : List Char → List (List Char)
  | [] => [[]]
  | c :: cs =>
    let rest := splitCharListBy p cs
    if p c then [] :: rest
    else
      match rest with
      | [] => [[c]]
      | r :: rs => (c :: r) :: rs

/-- Python s.split(sep) for a one-character separator. -/
def pySplitChar (sep : Char) (s : String) : List String :=
  (splitCharListBy (fun c => c == sep) s.data).map String.mk

/-- Python str.strip(): drop leading and trailing whitespace. -/
def pyStrip (s : String) : String :=
  String.mk (((s.data.dropWhile Char.isWhitespace).reverse.dropWhile
    Char.isWhitespace).reverse)

/-- Python sep.join(list): interleave the separator between the pieces. -/
def pyJoin (sep : String) : List String → String
  | [] => ""
  | [w] => w
  | w :: ws => w ++ sep ++ pyJoin sep ws

/-- Python str.split() with no argument: split on whitespace runs and
discard empty pieces, so every returned word is nonempty. -/
def pySplitWS (s : String) : List String :=
  ((splitCharListBy Char.isWhitespace s.data).map String.mk).filter (fun w => w != "")

/-- Python s[:n]: the first n characters (code points) of s. -/
def pySlice (s : String) (n : Nat) : String :=
  String.mk (s.data.take n)

/-- Decimal rendering of a natural number, as produced by Python's
str()/f-string interpolation of a nonnegative int: big-endian decimal
digits, with "0" for zero. -/
def decimalRepr (n : Nat) : String :=
  if n = 0 then "0" else String.mk (((Nat.digits 10 n).map Nat.digitChar).reverse)

/-! ## app/core/config.py (Settings) -/

/-- Settings.MAX_FILE_SIZE (config.py line 31): 10 MB. -/
def MAX_FILE_SIZE : Nat := 10 * 1024 * 1024

/-- Settings.ALLOWED_EXTENSIONS (config.py line 32). -/
def ALLOWED_EXTENSIONS : List String := [".pdf", ".docx", ".txt"]

/-- Settings.UPLOAD_DIR (config.py line 30). -/
def UPLOAD_DIR : String := "uploads"

/-! ## pathlib suffix, as used by FileProcessor -/

/-- Final path component, modelling pathlib Path(p).name: components are
separated by '/', with empty and "." components dropped. -/
def pathName (p : String) : String :=
  (((pySplitChar '/' p).filter (fun c => c != "" && c != ".")).getLastD "")

/-- Split a character list around its last '.', returning the parts before
and after it, or none when no '.' occurs. -/
def splitAtLastDot : List Char → Option (List Char × List Char)
  | [] => none
  | c :: cs =>
    match splitAtLastDot cs with
    | some (pre, post) => some (c :: pre, post)
    | none => if c = '.' then some ([], cs) else none

/-- pathlib Path(p).suffix: the final extension of the last component,
dot included; empty when the last '.' is the first or last character of
the name (so ".bashrc" and "foo." have no suffix). -/
def pathSuffix (p : String) : String :=
  let name := (pathName p).data
  match splitAtLastDot name with
  | some (pre, post) => if pre ≠ [] ∧ post ≠ [] then String.mk ('.' :: post) else ""
  | none => ""

/-! ## app/core/file_processor.py (FileProcessor) -/

/-- FileProcessor.is_allowed_file (file_processor.py lines 15-17):
Path(filename).suffix.lower() in settings.ALLOWED_EXTENSIONS. -/
def is_allowed_file (filename : String) : Bool :=
  ALLOWED_EXTENSIONS.contains (asciiLower (pathSuffix filename))

/-- Environment of one upload request: the request data plus the outcomes
of the nondeterministic or external steps (uuid generation, text
extraction from the saved file). -/
structure UploadEnv where
  filename : String
  content_size : Nat
  unique_name : String
  extract_result : Option String

/-- FileProcessor.process_uploaded_file (file_processor.py lines 86-107).
Returns the (file_path, unique_filename, extracted_text) triple together
with the list of file paths written to disk during the call: a disallowed
extension yields (None, None, None) and writes nothing; otherwise the raw
bytes are saved under a unique name before extraction is attempted, and
the extraction result (possibly None) is returned as-is. -/
def process_uploaded_file (env : UploadEnv) :
    (Option String × Option String × Option String) × List String :=
  if ¬ is_allowed_file env.filename then ((none, none, none), [])
  else
    let path := UPLOAD_DIR ++ "/" ++ env.unique_name
    ((some path, some env.unique_name, env.extract_result), [path])

/-! ## app/api/documents.py (upload_document endpoint) -/

/-- HTTPException outcomes raised by the upload endpoint. -/
inductive HTTPError where
  | badRequest (detail : String)
  | internalServerError (detail : String)
deriving DecidableEq

/-- HTTP status code of an endpoint outcome. -/
def statusCode {α : Type} : Except HTTPError α → Nat
  | .ok _ => 200
  | .error (.badRequest _) => 400
  | .error (.internalServerError _) => 500

/-- Document record created by the endpoint (documents.py lines 57-64). -/
structure DocRecord where
  filename : String
  original_filename : String
  file_path : String
  file_type : String
  file_size : Nat
  content : String
deriving DecidableEq

deriving instance DecidableEq for Except

/-- Everything observable about one run of the upload endpoint: its HTTP
result, the files written to disk, and the document records created. -/
structure UploadOutcome where
  result : Except HTTPError DocRecord
  files_written : List String
  records_created : List DocRecord
deriving DecidableEq

/-- upload_document (documents.py lines 16-75), step for step: reject a
missing filename (400), a disallowed extension (400), an oversized body
(400, checked before process_uploaded_file is called, hence before any
write or record); then process the file, reject a failed or empty
extraction (500, with the saved file left on disk and no record), and
otherwise create the document record. The subsequent AI-processing call is
wrapped in try/except in the source and cannot change the response, so it
is not modelled. Detail strings of the errors are fixed representatives. -/
def upload_document (env : UploadEnv) : UploadOutcome :=
  if env.filename = "" then
    ⟨.error (.badRequest "No file provided"), [], []⟩
  else if ¬ is_allowed_file env.filename then
    ⟨.error (.badRequest "File type not allowed. Allowed types: .pdf, .docx, .txt"), [], []⟩
  else if env.content_size > MAX_FILE_SIZE then
    ⟨.error (.badRequest "File too large. Maximum size: 10.0 MB"), [], []⟩
  else
    let processed := process_uploaded_file env
    let written := processed.2
    match processed.1 with
    | (some fp, some_unique, some text) =>
      if fp = "" ∨ text = "" then
        ⟨.error (.internalServerError "Failed to process file"), written, []⟩
      else
        let doc : DocRecord :=
          { filename := some_unique.getD ""
            original_filename := env.filename
            file_path := fp
            file_type := asciiLower ((pySplitChar '.' env.filename).getLastD "")
            file_size := env.content_size
            content := text }
        ⟨.ok doc, written, [doc]⟩
    | _ => ⟨.error (.internalServerError "Failed to process file"), written, []⟩

/-! ## Backend choice (app/api/documents.py line 10, app/api/chat.py line 9,
app/api/web.py line 12) -/

/-- The two embedding/answering backends defined by the sources: the hosted
OpenAI-based AIService and the local-model AlternativeAIService. -/
inductive Backend where
  | hosted
  | alternative
deriving DecidableEq

/-- Which backend serves the API routes, as a function of hosted-API
availability. Every route module imports alternative_ai_service as
ai_service unconditionally (documents.py line 10, chat.py line 9, web.py
line 12); the hosted AIService module is never imported by any route, so
the chosen backend is a constant, independent of the availability input. -/
def chooseServingBackend (hostedAvailable : Bool) : Backend :=
  Backend.alternative

/-! ## Vector index model (Pinecone), namespaces, and document processing -/

/-- AIService._get_document_namespace (ai_service.py lines 64-66):
"doc_" followed by the decimal rendering of the document id. -/
def AIService.get_document_namespace (document_id : Nat) : String :=
  "doc_" ++ decimalRepr document_id

/-- AlternativeAIService._get_document_namespace
(alternative_ai_service.py lines 224-226): the same rendering. -/
def AlternativeAIService.get_document_namespace (document_id : Nat) : String :=
  "doc_" ++ decimalRepr document_id

/-- One Pinecone vector as upserted by process_document_content
(alternative_ai_service.py lines 251-257): an id, an embedding payload
(kept abstract), and the text/document_id metadata. -/
structure PVector (α : Type) where
  id : String
  values : α
  metadata_text : String
  metadata_document_id : Nat
deriving DecidableEq

/-- The Pinecone index, observed namespace by namespace: each namespace
holds a list of vectors. -/
structure PineconeIndex (α : Type) where
  store : String → List (PVector α)

/-- index.delete(delete_all=True, namespace=ns): empty one namespace,
leave every other namespace unchanged. -/
def PineconeIndex.deleteAllNamespace {α : Type} (idx : PineconeIndex α)
    (ns : String) : PineconeIndex α :=
  ⟨fun n => if n = ns then [] else idx.store n⟩

/-- Upsert of a single vector into a namespace's vector list: a vector
with the same id is overwritten, otherwise the vector is appended. -/
def upsertOne {α : Type} (l : List (PVector α)) (v : PVector α) : List (PVector α) :=
  (l.filter (fun w => w.id != v.id)) ++ [v]

/-- index.upsert(vectors=vs, namespace=ns): upsert each vector in order
into the namespace, leaving other namespaces unchanged. -/
def PineconeIndex.upsert {α : Type} (idx : PineconeIndex α) (ns : String)
    (vs : List (PVector α)) : PineconeIndex α :=
  ⟨fun n => if n = ns then vs.foldl upsertOne (idx.store n) else idx.store n⟩

/-- Chunk vector id f"doc_{document_id}_chunk_{i}"
(alternative_ai_service.py line 254). -/
def chunkId (document_id i : Nat) : String :=
  "doc_" ++ decimalRepr document_id ++ "_chunk_" ++ decimalRepr i

/-- The enumerate loop of process_document_content, with the running index
made explicit: the k-th element of the remaining (text, embedding) pairs
becomes the vector with id chunkId document_id (i + k). -/
def mkChunkVectorsFrom {α : Type} (document_id : Nat) :
    Nat → List (String × α) → List (PVector α)
  | _, [] => []
  | i, te :: rest =>
    ⟨chunkId document_id i, te.2, te.1, document_id⟩ ::
      mkChunkVectorsFrom document_id (i + 1) rest

/-- The vector list built by the enumerate(zip(texts, embeddings)) loop of
process_document_content (alternative_ai_service.py lines 251-257). -/
def mkChunkVectors {α : Type} (texts : List String) (embeds : List α)
    (document_id : Nat) : List (PVector α) :=
  mkChunkVectorsFrom document_id 0 (texts.zip embeds)

/-- Environment of AlternativeAIService.process_document_content: whether
Pinecone and the embedding model initialised, the library text splitter,
and the embedding model (both external, kept abstract). -/
structure ProcEnv (α : Type) where
  initialized : Bool
  split_text : String → List String
  embed_documents : List String → List α

/-- AlternativeAIService.process_document_content
(alternative_ai_service.py lines 228-267): when uninitialised, return None
and leave the index untouched; otherwise split the content, delete all
vectors in the document's namespace, then upsert the freshly embedded
chunk vectors into that namespace and return True. The outer try/except
returns None on an exception of an external call; the external calls are
modelled as total functions, so the catch branch is unreachable in the
model. -/
def AlternativeAIService.process_document_content {α : Type} (env : ProcEnv α)
    (idx : PineconeIndex α) (content : String) (document_id : Nat) :
    PineconeIndex α × Option Bool :=
  if ¬ env.initialized then (idx, none)
  else
    let texts := env.split_text content
    let ns := AlternativeAIService.get_document_namespace document_id
    let idx1 := idx.deleteAllNamespace ns
    let embeds := env.embed_documents texts
    let vectors := mkChunkVectors texts embeds document_id
    (idx1.upsert ns vectors, some true)

/-! ## AlternativeAIService LLM selection and SimpleLLM
(alternative_ai_service.py lines 48-151) -/

/-- The two LLMs an AlternativeAIService instance can end up with. -/
inductive LLMKind where
  | ollama
  | simple
deriving DecidableEq

/-- AlternativeAIService.__init__ LLM selection (alternative_ai_service.py
lines 141-151): the constructor calls the Ollama LLM on "test"; if that
call raises (Except.error) or its response contains
"Error: Cannot connect", the constructor raises and the bare except
installs SimpleLLM; otherwise the OllamaLLM is kept. -/
def initLLM (test_outcome : Except Unit String) : LLMKind :=
  match test_outcome with
  | .error _ => LLMKind.simple
  | .ok r => if strContains r "Error: Cannot connect" then LLMKind.simple else LLMKind.ollama

/-- The canned message SimpleLLM._call falls back to
(alternative_ai_service.py line 120). -/
def simpleFallbackMessage : String :=
  "I can help you with questions about the uploaded document. The document processing system is working with basic text analysis."

/-- The line loop of SimpleLLM._call (alternative_ai_service.py lines
101-114): walk the prompt's lines; a line containing "context:" switches
collection on, a line containing "question:" stops the walk, and while
collection is on each line is stripped and collected. -/
def collectContextLines : List String → Bool → List String
  | [], _ => []
  | line :: rest, inCtx =>
    if strContains (asciiLower line) "context:" then collectContextLines rest true
    else if strContains (asciiLower line) "question:" then []
    else if inCtx then pyStrip line :: collectContextLines rest true
    else collectContextLines rest false

/-- SimpleLLM._call (alternative_ai_service.py lines 91-120): when the
lowercased prompt contains "context:", collect the context lines; if any
were collected, answer "Based on the document context: " followed by the
first three of them joined by spaces; in every other case return the
canned fallback message. Total by construction: no branch raises. -/
def SimpleLLM.call (prompt : String) : String :=
  if strContains (asciiLower prompt) "context:" then
    let ctx := collectContextLines (pySplitChar '\n' prompt) false
    if ctx ≠ [] then "Based on the document context: " ++ pyJoin " " (ctx.take 3)
    else simpleFallbackMessage
  else simpleFallbackMessage

/-! ## AlternativeAIService.chat_with_document and summarize_document
(alternative_ai_service.py lines 320-378) -/

/-- Environment of one chat_with_document call on the local backend:
whether load_vectorstore produces a vectorstore (it returns None
otherwise, catching its own exceptions), the similarity search (returning
the page contents of the top-k documents, or raising), and the LLM call
(returning a response string, or raising). -/
structure AltChatEnv where
  load_ok : Bool
  similarity_search : String → Except Unit (List String)
  llm : String → Except Unit String

/-- The prompt f-string of AlternativeAIService.chat_with_document
(alternative_ai_service.py lines 342-349): it interpolates only the
retrieved context and the question. -/
def altAnswerPrompt (context question : String) : String :=
  "Based on the following context from the document, please answer the question.\n\nContext:\n"
    ++ context ++ "\n\nQuestion: " ++ question ++ "\n\nAnswer:"

/-- Body of the try block of AlternativeAIService.chat_with_document
(alternative_ai_service.py lines 325-353). The chat_history parameter is
accepted but never read by the source body. -/
def AlternativeAIService.chat_body (env : AltChatEnv) (question : String)
    (chat_history : List (String × String)) : Except Unit String :=
  if ¬ env.load_ok then
    .ok "Error: Document not processed or vectorstore not found. Please reprocess the document."
  else do
    let docs ← env.similarity_search question
    if docs.isEmpty then
      .ok "I couldn\x27t find relevant information in the document to answer your question."
    else
      let context := pyJoin "\n" docs
      let prompt := altAnswerPrompt context question
      let response ← env.llm prompt
      .ok (if response ≠ "" then pyStrip response else
        "I\x27m sorry, I couldn\x27t generate a response based on the document content.")

/-- AlternativeAIService.chat_with_document (alternative_ai_service.py
lines 320-357): the try body with its except-branch, which converts any
raised exception into a fixed apology string. -/
def AlternativeAIService.chat_with_document (env : AltChatEnv) (question : String)
    (chat_history : List (String × String)) : String :=
  match AlternativeAIService.chat_body env question chat_history with
  | .ok s => s
  | .error _ => "I\x27m sorry, I encountered an error while processing your question."

/-- The string handed to self.llm by AlternativeAIService.chat_with_document,
when the control flow reaches the LLM call (alternative_ai_service.py
lines 342-352): None when an earlier branch returns first. -/
def AlternativeAIService.llm_input (env : AltChatEnv) (question : String)
    (chat_history : List (String × String)) : Option String :=
  if ¬ env.load_ok then none
  else
    match env.similarity_search question with
    | .error _ => none
    | .ok docs =>
      if docs.isEmpty then none
      else some (altAnswerPrompt (pyJoin "\n" docs) question)

/-- Environment of a summarize_document call: the LLM invocation. -/
structure SummEnv where
  llm : String → Except Unit String

/-- The summary prompt f-string of AlternativeAIService.summarize_document
(alternative_ai_service.py lines 367-371). -/
def altSummaryPrompt (content : String) : String :=
  "Please provide a comprehensive summary of the following document:\n            \n"
    ++ content ++ "\n\nSummary:"

/-- Body of the try block of AlternativeAIService.summarize_document
(alternative_ai_service.py lines 361-374): truncate long content to 2000
characters plus "...", call the LLM, and strip a nonempty response. -/
def AlternativeAIService.summarize_body (env : SummEnv) (content : String) :
    Except Unit String := do
  let content := if content.length > 2000 then pySlice content 2000 ++ "..." else content
  let summary ← env.llm (altSummaryPrompt content)
  .ok (if summary ≠ "" then pyStrip summary else "Unable to generate summary.")

/-- AlternativeAIService.summarize_document (alternative_ai_service.py
lines 359-378) with its except-branch. -/
def AlternativeAIService.summarize_document (env : SummEnv) (content : String) : String :=
  match AlternativeAIService.summarize_body env content with
  | .ok s => s
  | .error _ => "Error generating summary."

/-! ## AIService.chat_with_document and summarize_document
(ai_service.py lines 131-207) -/

/-- Environment of one chat_with_document call on the hosted backend:
whether load_vectorstore produces a vectorstore, and the
ConversationalRetrievalChain invocation, whose answer depends on the
question and on the chat history preloaded into the chain's memory
(ai_service.py lines 131-152), and which may raise. -/
structure AIChatEnv where
  load_ok : Bool
  qa_chain : String → List (String × String) → Except Unit String

/-- Body of the try block of AIService.chat_with_document (ai_service.py
lines 159-173): a missing vectorstore returns the fixed error string;
otherwise the conversation chain built over the supplied chat history
answers the question. -/
def AIService.chat_body (env : AIChatEnv) (question : String)
    (chat_history : List (String × String)) : Except Unit String :=
  if ¬ env.load_ok then
    .ok "Error: Document not processed or vectorstore not found. Please reprocess the document."
  else do
    let answer ← env.qa_chain question chat_history
    .ok answer

/-- AIService.chat_with_document (ai_service.py lines 154-177) with its
except-branch. -/
def AIService.chat_with_document (env : AIChatEnv) (question : String)
    (chat_history : List (String × String)) : String :=
  match AIService.chat_body env question chat_history with
  | .ok s => s
  | .error _ => "I\x27m sorry, I encountered an error while processing your question."

/-- Body of the try block of AIService.summarize_document (ai_service.py
lines 181-203): truncate to 3000 characters, call the completion API,
strip the response. -/
def AIService.summarize_body (env : SummEnv) (content : String) :
    Except Unit String := do
  let content := if content.length > 3000 then pySlice content 3000 else content
  let text ← env.llm (altSummaryPrompt content)
  .ok (pyStrip text)

/-- AIService.summarize_document (ai_service.py lines 179-207) with its
except-branch. -/
def AIService.summarize_document (env : SummEnv) (content : String) : String :=
  match AIService.summarize_body env content with
  | .ok s => s
  | .error _ => "Error generating summary."

/-! ## Chat history persistence (app/crud/crud.py, app/api/chat.py) -/

/-- One stored chat message row (models.py): its session, content, role
flag, and creation timestamp (abstracted to a Nat). -/
structure ChatMessage where
  session_id : Nat
  content : String
  is_user : Bool
  created_at : Nat

/-- Ordering used by get_session_messages: ascending created_at. -/
def msgLe (a b : ChatMessage) : Prop := a.created_at ≤ b.created_at

instance : DecidableRel msgLe := fun a b => Nat.decLe a.created_at b.created_at

instance : IsTotal ChatMessage msgLe := ⟨fun a b => Nat.le_total a.created_at b.created_at⟩

instance : IsTrans ChatMessage msgLe := ⟨fun _ _ _ h h' => Nat.le_trans h h'⟩

/-- get_session_messages (crud.py lines 91-92): the rows whose session_id
matches, ordered ascending by created_at. The database is modelled as the
list of stored rows; the SQL order_by is modelled as a sort of the
filtered rows. -/
def get_session_messages (db : List ChatMessage) (session_id : Nat) : List ChatMessage :=
  List.insertionSort msgLe (db.filter (fun m => m.session_id == session_id))

/-- The history-pair conversion of send_chat_message (chat.py line 73):
(msg.content, "") for a user message, ("", msg.content) otherwise. -/
def toHistoryPair (m : ChatMessage) : String × String :=
  if m.is_user then (m.content, "") else ("", m.content)

/-- The chat_history value computed by send_chat_message (chat.py lines
71-73) for a session. -/
def send_chat_message_history (db : List ChatMessage) (session_id : Nat) :
    List (String × String) :=
  (get_session_messages db session_id).map toHistoryPair

/-- The answering slice of send_chat_message (chat.py lines 69-76): the
backend is called with the message and the converted history of the
session, in the order get_session_messages returned it. -/
def send_chat_message_response (env : AltChatEnv) (db : List ChatMessage)
    (session_id : Nat) (message : String) : String :=
  AlternativeAIService.chat_with_document env message
    (send_chat_message_history db session_id)

/-! ## get_chat_title (ai_service.py lines 209-219,
alternative_ai_service.py lines 380-390; the two bodies are textually
identical) -/

/-- AIService.get_chat_title: first five whitespace-separated words joined
by single spaces, truncated to 47 characters plus "..." when the join
exceeds 50 characters, and "New Chat" when the result is empty. The try
body is exception-free, so the except-branch is unreachable. -/
def AIService.get_chat_title (first_message : String) : String :=
  let words := (pySplitWS first_message).take 5
  let title := pyJoin " " words
  let title := if title.length > 50 then pySlice title 47 ++ "..." else title
  if title = "" then "New Chat" else title

/-- AlternativeAIService.get_chat_title: textually identical to
AIService.get_chat_title. -/
def AlternativeAIService.get_chat_title (first_message : String) : String :=
  let words := (pySplitWS first_message).take 5
  let title := pyJoin " " words
  let title := if title.length > 50 then pySlice title 47 ++ "..." else title
  if title = "" then "New Chat" else title

/-! ## Helper lemmas -/

theorem strContains_allowed_iff (f : String) :
    is_allowed_file f = true ↔ asciiLower (pathSuffix f) ∈ ALLOWED_EXTENSIONS := by
  simp [is_allowed_file, List.elem_iff, List.contains_eq_any_beq]

/-! ## C4 -/

/-- C4: is_allowed_file accepts exactly the filenames whose lowercased
final extension is .pdf, .docx or .txt; for any other filename,
process_uploaded_file returns the (None, None, None) triple without
writing any file, and the upload endpoint answers HTTP 400. -/
theorem spec_C4 (env : UploadEnv) :
    (is_allowed_file env.filename = true ↔
      asciiLower (pathSuffix env.filename) ∈ ALLOWED_EXTENSIONS)
    ∧ (is_allowed_file env.filename = false →
        process_uploaded_file env = ((none, none, none), [])
        ∧ statusCode (upload_document env).result = 400) := by
  refine ⟨strContains_allowed_iff env.filename, fun h => ⟨?_, ?_⟩⟩
  · simp [process_uploaded_file, h]
  · by_cases hf : env.filename = "" <;>
      simp [upload_document, hf, h, statusCode]

/-- Witness for C4 at the concrete rejected upload of "evil.exe". -/
theorem spec_C4_witness :
    process_uploaded_file ⟨"evil.exe", 3, "u.exe", some "hi"⟩ = ((none, none, none), [])
    ∧ statusCode (upload_document ⟨"evil.exe", 3, "u.exe", some "hi"⟩).result = 400 :=
  (spec_C4 ⟨"evil.exe", 3, "u.exe", some "hi"⟩).2 (by decide)

/-! ## C8 -/

/-- C8: an upload whose body exceeds 10 * 1024 * 1024 bytes is rejected
with HTTP 400 before any file is written and before any document record
is created; a body of at most that size is never rejected by the size
check. -/
theorem spec_C8 (env : UploadEnv) :
    (MAX_FILE_SIZE < env.content_size →
      statusCode (upload_document env).result = 400
      ∧ (upload_document env).files_written = []
      ∧ (upload_document env).records_created = [])
    ∧ (env.content_size ≤ MAX_FILE_SIZE →
      (upload_document env).result ≠
        Except.error (HTTPError.badRequest "File too large. Maximum size: 10.0 MB")) := by
  constructor
  · intro h
    by_cases hf : env.filename = ""
    · simp [upload_document, hf, statusCode]
    · by_cases ha : is_allowed_file env.filename
      · simp [upload_document, hf, ha, h, statusCode]
      · simp [upload_document, hf, ha, statusCode]
  · intro h
    have hs : ¬ MAX_FILE_SIZE < env.content_size := Nat.not_lt.mpr h
    by_cases hf : env.filename = ""
    · simp [upload_document, hf]
    · by_cases ha : is_allowed_file env.filename
      · simp [upload_document, hf, ha, hs, process_uploaded_file]
        rcases env.extract_result with _ | t
        · simp
        · by_cases ht : UPLOAD_DIR ++ "/" ++ env.unique_name = "" ∨ t = "" <;> simp [ht]
      · simp [upload_document, hf, ha]

/-- Witness for C8: a 10 MB + 1 byte body is rejected with 400 and leaves
no file and no record; a small body passes the size check. -/
theorem spec_C8_witness :
    (statusCode (upload_document ⟨"a.txt", 10485761, "u.txt", some "x"⟩).result = 400
      ∧ (upload_document ⟨"a.txt", 10485761, "u.txt", some "x"⟩).files_written = []
      ∧ (upload_document ⟨"a.txt", 10485761, "u.txt", some "x"⟩).records_created = [])
    ∧ (upload_document ⟨"a.txt", 3, "u.txt", some "x"⟩).result ≠
        Except.error (HTTPError.badRequest "File too large. Maximum size: 10.0 MB") :=
  ⟨(spec_C8 ⟨"a.txt", 10485761, "u.txt", some "x"⟩).1 (by decide),
   (spec_C8 ⟨"a.txt", 3, "u.txt", some "x"⟩).2 (by decide)⟩

/-! ## C9 -/

/-- C9: an allowed, size-conforming upload whose text extraction fails or
yields the empty string is answered with HTTP 500 "Failed to process
file", creates no document record, and leaves the already-saved raw file
in the upload directory. -/
theorem spec_C9 (env : UploadEnv)
    (hf : env.filename ≠ "")
    (ha : is_allowed_file env.filename = true)
    (hsz : env.content_size ≤ MAX_FILE_SIZE)
    (hex : env.extract_result = none ∨ env.extract_result = some "") :
    (upload_document env).result =
      Except.error (HTTPError.internalServerError "Failed to process file")
    ∧ (upload_document env).records_created = []
    ∧ (upload_document env).files_written = [UPLOAD_DIR ++ "/" ++ env.unique_name] := by
  have hs : ¬ MAX_FILE_SIZE < env.content_size := Nat.not_lt.mpr hsz
  rcases hex with hex | hex <;>
    simp [upload_document, hf, ha, hs, process_uploaded_file, hex]

/-- Witness for C9 at a concrete blank TXT upload. -/
theorem spec_C9_witness :
    (upload_document ⟨"blank.txt", 3, "stored.txt", some ""⟩).result =
      Except.error (HTTPError.internalServerError "Failed to process file")
    ∧ (upload_document ⟨"blank.txt", 3, "stored.txt", some ""⟩).records_created = []
    ∧ (upload_document ⟨"blank.txt", 3, "stored.txt", some ""⟩).files_written =
        [UPLOAD_DIR ++ "/" ++ "stored.txt"] :=
  spec_C9 ⟨"blank.txt", 3, "stored.txt", some ""⟩ (by decide) (by decide) (by decide)
    (Or.inr rfl)

/-! ## C10 helper lemmas -/

theorem pySplitWS_mem_ne_empty {s w : String} (h : w ∈ pySplitWS s) : w ≠ "" := by
  have h2 := (List.mem_filter.mp h).2
  simpa using h2

theorem pyJoin_cons_ne_empty (sep w : String) (ws : List String) (hw : w ≠ "") :
    pyJoin sep (w :: ws) ≠ "" := by
  cases ws with
  | nil => simpa [pyJoin] using hw
  | cons x xs =>
    simp only [pyJoin]
    intro he
    apply hw
    have hd := congrArg String.data he
    simp only [String.data_append] at hd
    have hempty : ("" : String).data = ([] : List Char) := rfl
    have hnil : w.data ++ (sep.data ++ (pyJoin sep (x :: xs)).data) = ([] : List Char) := by
      simpa [List.append_assoc] using hd
    have hw0 : w.data = [] := (List.append_eq_nil.mp hnil).1
    exact String.ext (hw0.trans hempty.symm)

theorem pySlice_length_le (s : String) (n : Nat) : (pySlice s n).length ≤ n := by
  have h : (pySlice s n).length = min n s.data.length := by
    simp [pySlice, String.length_mk, List.length_take]
  rw [h]
  exact Nat.min_le_left n s.data.length

/-! ## C10 -/

/-- C10: both get_chat_title implementations agree, and return a nonempty
string of at most 50 characters: the first five whitespace-separated words
joined by single spaces, truncated to its first 47 characters plus "..."
when the join exceeds 50 characters, and exactly "New Chat" when the
message contains no words. -/
theorem spec_C10 (s : String) :
    AlternativeAIService.get_chat_title s =
      (if (pySplitWS s).take 5 = [] then "New Chat"
       else if (pyJoin " " ((pySplitWS s).take 5)).length > 50
         then pySlice (pyJoin " " ((pySplitWS s).take 5)) 47 ++ "..."
         else pyJoin " " ((pySplitWS s).take 5))
    ∧ AlternativeAIService.get_chat_title s ≠ ""
    ∧ (AlternativeAIService.get_chat_title s).length ≤ 50
    ∧ AIService.get_chat_title s = AlternativeAIService.get_chat_title s := by
  have hsub : ∀ w ∈ (pySplitWS s).take 5, w ≠ "" := fun w hw =>
    pySplitWS_mem_ne_empty (List.take_subset 5 (pySplitWS s) hw)
  rcases hcase : (pySplitWS s).take 5 with _ | ⟨w, rest⟩
  · have h1 : AlternativeAIService.get_chat_title s = "New Chat" := by
      simp [AlternativeAIService.get_chat_title, hcase, pyJoin]
    refine ⟨by simp [h1], by simp [h1], by rw [h1]; decide,
      by simp [AIService.get_chat_title, AlternativeAIService.get_chat_title]⟩
  · have hw : w ≠ "" := hsub w (by rw [hcase]; exact List.mem_cons_self w rest)
    have ht : pyJoin " " (w :: rest) ≠ "" := pyJoin_cons_ne_empty " " w rest hw
    by_cases h50 : (pyJoin " " (w :: rest)).length > 50
    · have h2ne : pySlice (pyJoin " " (w :: rest)) 47 ++ "..." ≠ "" := by
        intro he
        have hlen := congrArg String.length he
        rw [String.length_append] at hlen
        have h3 : ("..." : String).length = 3 := rfl
        have h0 : ("" : String).length = 0 := rfl
        omega
      have h1 : AlternativeAIService.get_chat_title s =
          pySlice (pyJoin " " (w :: rest)) 47 ++ "..." := by
        simp [AlternativeAIService.get_chat_title, hcase, h50, h2ne]
      refine ⟨by rw [h1]; simp [h50], by rw [h1]; exact h2ne, ?_,
        by simp [AIService.get_chat_title, AlternativeAIService.get_chat_title]⟩
      rw [h1, String.length_append]
      have h3 : ("..." : String).length = 3 := rfl
      have h4 := pySlice_length_le (pyJoin " " (w :: rest)) 47
      omega
    · have h1 : AlternativeAIService.get_chat_title s = pyJoin " " (w :: rest) := by
        simp [AlternativeAIService.get_chat_title, hcase, h50, ht]
      refine ⟨by rw [h1]; simp [h50], by rw [h1]; exact ht, by rw [h1]; omega,
        by simp [AIService.get_chat_title, AlternativeAIService.get_chat_title]⟩

/-- Witness for C10 at a concrete message. -/
theorem spec_C10_witness :
    AIService.get_chat_title "Hello world" = AlternativeAIService.get_chat_title "Hello world" :=
  (spec_C10 "Hello world").2.2.2

/-! ## C5 -/

/-- C5: the constructor keeps the Ollama LLM exactly when the test call
neither raises nor reports a connection failure, and falls back to
SimpleLLM otherwise; SimpleLLM always returns a string, and its output is
fully characterised: exactly when the lowercased prompt contains
"context:" and the line walk collects a nonempty list of context lines
before a "question:" line, the result is "Based on the document
context: " followed by the first (at most) three collected lines joined
by spaces, and in every other case it is the fixed canned message. -/
theorem spec_C5 :
    (initLLM (Except.error ()) = LLMKind.simple)
    ∧ (∀ r : String, strContains r "Error: Cannot connect" = true →
        initLLM (Except.ok r) = LLMKind.simple)
    ∧ (∀ r : String, strContains r "Error: Cannot connect" = false →
        initLLM (Except.ok r) = LLMKind.ollama)
    ∧ (∀ prompt : String,
        SimpleLLM.call prompt =
          (if strContains (asciiLower prompt) "context:" = true
              ∧ collectContextLines (pySplitChar '\n' prompt) false ≠ []
           then "Based on the document context: "
             ++ pyJoin " " ((collectContextLines (pySplitChar '\n' prompt) false).take 3)
           else simpleFallbackMessage)) := by
  refine ⟨rfl, fun r h => by simp [initLLM, h], fun r h => by simp [initLLM, h],
    fun prompt => ?_⟩
  by_cases hc : strContains (asciiLower prompt) "context:" = true
  · by_cases hctx : collectContextLines (pySplitChar '\n' prompt) false = []
    · have hcond : ¬ (strContains (asciiLower prompt) "context:" = true
          ∧ collectContextLines (pySplitChar '\n' prompt) false ≠ []) :=
        fun hand => hand.2 hctx
      rw [if_neg hcond]
      simp [SimpleLLM.call, hc, hctx]
    · have hcond : strContains (asciiLower prompt) "context:" = true
          ∧ collectContextLines (pySplitChar '\n' prompt) false ≠ [] := ⟨hc, hctx⟩
      rw [if_pos hcond]
      simp [SimpleLLM.call, hc, hctx]
  · have hcond : ¬ (strContains (asciiLower prompt) "context:" = true
        ∧ collectContextLines (pySplitChar '\n' prompt) false ≠ []) :=
      fun hand => hc hand.1
    rw [if_neg hcond]
    simp only [Bool.not_eq_true] at hc
    simp [SimpleLLM.call, hc]

/-- Witness for C5: the connection-failure response selects SimpleLLM, a
clean response keeps Ollama, and a concrete context-bearing prompt takes
the positive based-on-context branch. -/
theorem spec_C5_witness :
    initLLM (Except.ok "Error: Cannot connect to Ollama. Make sure Ollama is running on localhost:11434")
      = LLMKind.simple
    ∧ initLLM (Except.ok "All good") = LLMKind.ollama
    ∧ SimpleLLM.call "Context:\nAlpha beta\nQuestion: q"
        = "Based on the document context: Alpha beta" :=
  ⟨spec_C5.2.1 "Error: Cannot connect to Ollama. Make sure Ollama is running on localhost:11434"
      (by decide),
   spec_C5.2.2.1 "All good" (by decide),
   (spec_C5.2.2.2 "Context:\nAlpha beta\nQuestion: q").trans (by decide)⟩

/-! ## C2 (corrected) -/

/-- Counterexample to C2 as stated: even with the hosted API available,
the serving backend is the local AlternativeAIService, not the hosted
AIService. -/
theorem spec_C2_counterexample :
    chooseServingBackend true = Backend.alternative
    ∧ chooseServingBackend true ≠ Backend.hosted :=
  ⟨rfl, by decide⟩

/-- C2 amended: the backend serving upload processing and chat is fixed to
AlternativeAIService by the route imports, independent of hosted-API
availability. -/
theorem spec_C2_amended :
    ∀ hostedAvailable : Bool, chooseServingBackend hostedAvailable = Backend.alternative :=
  fun _ => rfl

/-! ## C1 (corrected) -/

/-- Counterexample to C1 as stated: at a concrete environment and
question, two invocations of the serving backend that differ only in
chat_history produce the same language-model input and the same answer. -/
theorem spec_C1_counterexample :
    AlternativeAIService.llm_input
        ⟨true, fun _ => Except.ok ["chunk one"], fun p => Except.ok p⟩
        "What?" [("earlier question", "earlier answer")]
      = AlternativeAIService.llm_input
        ⟨true, fun _ => Except.ok ["chunk one"], fun p => Except.ok p⟩
        "What?" []
    ∧ AlternativeAIService.chat_with_document
        ⟨true, fun _ => Except.ok ["chunk one"], fun p => Except.ok p⟩
        "What?" [("earlier question", "earlier answer")]
      = AlternativeAIService.chat_with_document
        ⟨true, fun _ => Except.ok ["chunk one"], fun p => Except.ok p⟩
        "What?" []
    ∧ ([("earlier question", "earlier answer")] : List (String × String)) ≠ [] :=
  ⟨rfl, rfl, by decide⟩

/-- C1 amended: the serving backend's chat_with_document ignores the
supplied prior turns entirely: for every environment and question, the
language-model input and the answer are the same for any two chat
histories. -/
theorem spec_C1_amended (env : AltChatEnv) (q : String)
    (h₁ h₂ : List (String × String)) :
    AlternativeAIService.llm_input env q h₁ = AlternativeAIService.llm_input env q h₂
    ∧ AlternativeAIService.chat_with_document env q h₁
      = AlternativeAIService.chat_with_document env q h₂ :=
  ⟨rfl, rfl⟩

/-! ## C6 -/

/-- C6: chat_with_document and summarize_document of both backends map
every internal failure to a fixed string instead of propagating it, and a
missing vectorstore yields exactly the fixed reprocess-error string. -/
theorem spec_C6 (envA : AltChatEnv) (envH : AIChatEnv) (envS : SummEnv)
    (q content : String) (hist : List (String × String)) :
    (envA.load_ok = false →
      AlternativeAIService.chat_with_document envA q hist =
        "Error: Document not processed or vectorstore not found. Please reprocess the document.")
    ∧ (envH.load_ok = false →
      AIService.chat_with_document envH q hist =
        "Error: Document not processed or vectorstore not found. Please reprocess the document.")
    ∧ (∀ e : Unit, AlternativeAIService.chat_body envA q hist = Except.error e →
      AlternativeAIService.chat_with_document envA q hist =
        "I\x27m sorry, I encountered an error while processing your question.")
    ∧ (∀ e : Unit, AIService.chat_body envH q hist = Except.error e →
      AIService.chat_with_document envH q hist =
        "I\x27m sorry, I encountered an error while processing your question.")
    ∧ (∀ e : Unit, AlternativeAIService.summarize_body envS content = Except.error e →
      AlternativeAIService.summarize_document envS content = "Error generating summary.")
    ∧ (∀ e : Unit, AIService.summarize_body envS content = Except.error e →
      AIService.summarize_document envS content = "Error generating summary.") := by
  refine ⟨fun h => ?_, fun h => ?_, fun e h => ?_, fun e h => ?_, fun e h => ?_, fun e h => ?_⟩
  · simp [AlternativeAIService.chat_with_document, AlternativeAIService.chat_body, h]
  · simp [AIService.chat_with_document, AIService.chat_body, h]
  · simp [AlternativeAIService.chat_with_document, h]
  · simp [AIService.chat_with_document, h]
  · simp [AlternativeAIService.summarize_document, h]
  · simp [AIService.summarize_document, h]

/-- Witness for C6 at concrete failing environments. -/
theorem spec_C6_witness :
    AlternativeAIService.chat_with_document
        ⟨false, fun _ => Except.ok [], fun _ => Except.ok ""⟩ "q" [] =
      "Error: Document not processed or vectorstore not found. Please reprocess the document."
    ∧ AIService.chat_with_document ⟨false, fun _ _ => Except.ok ""⟩ "q" [] =
      "Error: Document not processed or vectorstore not found. Please reprocess the document."
    ∧ AlternativeAIService.chat_with_document
        ⟨true, fun _ => Except.error (), fun _ => Except.ok ""⟩ "q" [] =
      "I\x27m sorry, I encountered an error while processing your question."
    ∧ AlternativeAIService.summarize_document ⟨fun _ => Except.error ()⟩ "c" =
      "Error generating summary." :=
  ⟨(spec_C6 ⟨false, fun _ => Except.ok [], fun _ => Except.ok ""⟩
      ⟨false, fun _ _ => Except.ok ""⟩ ⟨fun _ => Except.ok ""⟩ "q" "c" []).1 rfl,
   (spec_C6 ⟨false, fun _ => Except.ok [], fun _ => Except.ok ""⟩
      ⟨false, fun _ _ => Except.ok ""⟩ ⟨fun _ => Except.ok ""⟩ "q" "c" []).2.1 rfl,
   (spec_C6 ⟨true, fun _ => Except.error (), fun _ => Except.ok ""⟩
      ⟨false, fun _ _ => Except.ok ""⟩ ⟨fun _ => Except.ok ""⟩ "q" "c" []).2.2.1 () rfl,
   (spec_C6 ⟨true, fun _ => Except.error (), fun _ => Except.ok ""⟩
      ⟨false, fun _ _ => Except.ok ""⟩ ⟨fun _ => Except.error ()⟩ "q" "c" []).2.2.2.2.1 () rfl⟩

/-! ## C7 -/

/-- C7: get_session_messages returns exactly the stored messages of the
session, sorted ascending by created_at, and send_chat_message hands the
backend precisely their (human, ai) conversion in that order. -/
theorem spec_C7 (db : List ChatMessage) (sid : Nat) :
    List.Perm (get_session_messages db sid)
      (db.filter (fun m => m.session_id == sid))
    ∧ List.Sorted msgLe (get_session_messages db sid)
    ∧ send_chat_message_history db sid = (get_session_messages db sid).map toHistoryPair
    ∧ ∀ (env : AltChatEnv) (msg : String),
        send_chat_message_response env db sid msg =
          AlternativeAIService.chat_with_document env msg
            ((get_session_messages db sid).map toHistoryPair) :=
  ⟨List.perm_insertionSort msgLe (db.filter (fun m => m.session_id == sid)),
   List.sorted_insertionSort msgLe (db.filter (fun m => m.session_id == sid)),
   rfl, fun _ _ => rfl⟩

/-! ## C3 helper lemmas -/

theorem digitChar_inj_lt : ∀ a < 10, ∀ b < 10, Nat.digitChar a = Nat.digitChar b → a = b := by
  decide

theorem map_digitChar_inj : ∀ l₁ l₂ : List Nat, (∀ d ∈ l₁, d < 10) → (∀ d ∈ l₂, d < 10) →
    l₁.map Nat.digitChar = l₂.map Nat.digitChar → l₁ = l₂ := by
  intro l₁
  induction l₁ with
  | nil =>
    intro l₂ _ _ h
    cases l₂ with
    | nil => rfl
    | cons b t => simp at h
  | cons a t ih =>
    intro l₂ h1 h2 h
    cases l₂ with
    | nil => simp at h
    | cons b t₂ =>
      simp only [List.map_cons, List.cons.injEq] at h
      have hab : a = b :=
        digitChar_inj_lt a (h1 a (List.mem_cons_self a t)) b
          (h2 b (List.mem_cons_self b t₂)) h.1
      have ht : t = t₂ :=
        ih t₂ (fun d hd => h1 d (List.mem_cons_of_mem a hd))
          (fun d hd => h2 d (List.mem_cons_of_mem b hd)) h.2
      rw [hab, ht]

theorem decimalRepr_zero_ne (n : Nat) (hn : n ≠ 0) :
    "0" ≠ String.mk (((Nat.digits 10 n).map Nat.digitChar).reverse) := by
  intro h
  have hd : ['0'] = ((Nat.digits 10 n).map Nat.digitChar).reverse :=
    congrArg String.data h
  have hlen : (Nat.digits 10 n).length = 1 := by
    have h2 := congrArg List.length hd
    simpa using h2.symm
  obtain ⟨d, hdig⟩ := List.length_eq_one.mp hlen
  have hdn : d = n := by
    have hofd := Nat.ofDigits_digits 10 n
    rw [hdig] at hofd
    simpa [Nat.ofDigits_cons, Nat.ofDigits_nil] using hofd
  have hchar : Nat.digitChar d = '0' := by
    rw [hdig] at hd
    simpa using hd.symm
  have hdlt : d < 10 := Nat.digits_lt_base (by norm_num)
    (by rw [hdig]; exact List.mem_cons_self d [])
  have hd0 : d = 0 := digitChar_inj_lt d hdlt 0 (by norm_num) hchar
  exact hn (by rw [← hdn, hd0])

theorem decimalRepr_injective : ∀ m n : Nat, decimalRepr m = decimalRepr n → m = n := by
  intro m n h
  unfold decimalRepr at h
  by_cases hm : m = 0 <;> by_cases hn : n = 0
  · rw [hm, hn]
  · exact absurd (by rwa [if_pos hm, if_neg hn] at h) (decimalRepr_zero_ne n hn)
  · exact absurd (by rw [if_neg hm, if_pos hn] at h; exact h.symm)
      (decimalRepr_zero_ne m hm)
  · rw [if_neg hm, if_neg hn] at h
    have hd : ((Nat.digits 10 m).map Nat.digitChar).reverse
        = ((Nat.digits 10 n).map Nat.digitChar).reverse :=
      congrArg String.data h
    have hmap := List.reverse_injective hd
    have hdig := map_digitChar_inj _ _
      (fun d hd0 => Nat.digits_lt_base (by norm_num) hd0)
      (fun d hd0 => Nat.digits_lt_base (by norm_num) hd0) hmap
    exact Nat.digits.injective 10 hdig

theorem namespace_injective :
    ∀ d₁ d₂ : Nat,
      AlternativeAIService.get_document_namespace d₁
        = AlternativeAIService.get_document_namespace d₂ → d₁ = d₂ := by
  intro d₁ d₂ h
  apply decimalRepr_injective
  have hd := congrArg String.data h
  simp only [String.data_append] at hd
  exact String.ext (List.append_cancel_left hd)

theorem chunkId_injective (d : Nat) : Function.Injective (chunkId d) := by
  intro i j h
  apply decimalRepr_injective
  have hd := congrArg String.data h
  simp only [chunkId, String.data_append, List.append_assoc] at hd
  have h1 := List.append_cancel_left hd
  have h2 := List.append_cancel_left h1
  have h3 := List.append_cancel_left h2
  exact String.ext h3

theorem mkChunkVectorsFrom_id_mem {α : Type} (d : Nat) :
    ∀ (l : List (String × α)) (i : Nat) (v : PVector α),
      v ∈ mkChunkVectorsFrom d i l → ∃ j, i ≤ j ∧ v.id = chunkId d j := by
  intro l
  induction l with
  | nil => intro i v hv; simp [mkChunkVectorsFrom] at hv
  | cons te rest ih =>
    intro i v hv
    rcases hv with _ | ⟨_, hv⟩
    · exact ⟨i, Nat.le_refl i, rfl⟩
    · obtain ⟨j, hj, hid⟩ := ih (i + 1) v hv
      exact ⟨j, Nat.le_of_succ_le hj, hid⟩

theorem mkChunkVectorsFrom_ids_nodup {α : Type} (d : Nat) :
    ∀ (l : List (String × α)) (i : Nat),
      ((mkChunkVectorsFrom d i l).map PVector.id).Nodup := by
  intro l
  induction l with
  | nil => intro i; simp [mkChunkVectorsFrom]
  | cons te rest ih =>
    intro i
    simp only [mkChunkVectorsFrom, List.map_cons, List.nodup_cons]
    refine ⟨?_, ih (i + 1)⟩
    intro hmem
    obtain ⟨v, hv, hid⟩ := List.mem_map.mp hmem
    obtain ⟨j, hj, hidj⟩ := mkChunkVectorsFrom_id_mem d rest (i + 1) v hv
    have : i = j := chunkId_injective d (by rw [← hid, hidj])
    omega

theorem foldl_upsertOne_append {α : Type} :
    ∀ (vs l : List (PVector α)),
      (∀ v ∈ vs, ∀ w ∈ l, w.id ≠ v.id) → ((vs.map PVector.id).Nodup) →
      vs.foldl upsertOne l = l ++ vs := by
  intro vs
  induction vs with
  | nil => intro l _ _; simp
  | cons v vs ih =>
    intro l hfresh hnodup
    simp only [List.foldl_cons]
    have hfilter : l.filter (fun w => w.id != v.id) = l := by
      apply List.filter_eq_self.mpr
      intro w hw
      simpa using hfresh v (List.mem_cons_self v vs) w hw
    have hups : upsertOne l v = l ++ [v] := by
      unfold upsertOne
      rw [hfilter]
    rw [hups]
    simp only [List.map_cons, List.nodup_cons] at hnodup
    rw [ih (l ++ [v]) ?_ hnodup.2]
    · simp
    · intro u hu w hw
      rcases List.mem_append.mp hw with hw | hw
      · exact hfresh u (List.mem_cons_of_mem v hu) w hw
      · have hw' : w = v := by simpa using hw
        subst hw'
        intro he
        exact hnodup.1 (he ▸ List.mem_map_of_mem PVector.id hu)

theorem mkChunkVectors_ids_nodup {α : Type} (texts : List String) (embeds : List α)
    (d : Nat) : ((mkChunkVectors texts embeds d).map PVector.id).Nodup :=
  mkChunkVectorsFrom_ids_nodup d (texts.zip embeds) 0

/-! ## C3 -/

/-- C3: both backends address the vector index through the namespace
"doc_" followed by the decimal rendering of the document id, distinct ids
give distinct namespaces, and on the initialised path
process_document_content empties the document's namespace and then
upserts exactly the new chunk vectors into it, leaving every other
namespace untouched: reprocessing replaces a document's vectors instead
of accumulating them, and the vectors live only in that namespace. -/
theorem spec_C3 :
    (∀ d : Nat,
      AlternativeAIService.get_document_namespace d = "doc_" ++ decimalRepr d
      ∧ AIService.get_document_namespace d = "doc_" ++ decimalRepr d)
    ∧ (∀ d₁ d₂ : Nat,
        AlternativeAIService.get_document_namespace d₁
          = AlternativeAIService.get_document_namespace d₂ → d₁ = d₂)
    ∧ (∀ (α : Type) (env : ProcEnv α) (idx : PineconeIndex α) (content : String) (d : Nat),
        env.initialized = true →
        (AlternativeAIService.process_document_content env idx content d).2 = some true
        ∧ (AlternativeAIService.process_document_content env idx content d).1.store
            (AlternativeAIService.get_document_namespace d)
          = mkChunkVectors (env.split_text content)
              (env.embed_documents (env.split_text content)) d
        ∧ ∀ ns, ns ≠ AlternativeAIService.get_document_namespace d →
            (AlternativeAIService.process_document_content env idx content d).1.store ns
              = idx.store ns) := by
  refine ⟨fun d => ⟨rfl, rfl⟩, namespace_injective, fun α env idx content d h => ?_⟩
  refine ⟨by simp [AlternativeAIService.process_document_content, h], ?_, ?_⟩
  · simp only [AlternativeAIService.process_document_content, h, PineconeIndex.upsert,
      PineconeIndex.deleteAllNamespace, not_true, if_false, if_pos rfl, ite_true, ite_false,
      Bool.not_eq_true]
    rw [foldl_upsertOne_append
      (mkChunkVectors (env.split_text content)
        (env.embed_documents (env.split_text content)) d) []
      (fun v _ w hw => absurd hw (List.not_mem_nil w))
      (mkChunkVectors_ids_nodup (env.split_text content)
        (env.embed_documents (env.split_text content)) d)]
    simp
  · intro ns hns
    simp [AlternativeAIService.process_document_content, h, PineconeIndex.upsert,
      PineconeIndex.deleteAllNamespace, hns]

/-- Witness for C3: concrete namespace injectivity application and a
concrete successful processing run. -/
theorem spec_C3_witness :
    (3 : Nat) = 3
    ∧ (AlternativeAIService.process_document_content
        (⟨true, fun _ => ["chunk"], fun _ => [0]⟩ : ProcEnv Nat)
        ⟨fun _ => []⟩ "content" 1).2 = some true :=
  ⟨spec_C3.2.1 3 3 rfl,
   (spec_C3.2.2 Nat ⟨true, fun _ => ["chunk"], fun _ => [0]⟩ ⟨fun _ => []⟩ "content" 1 rfl).1⟩
